import Mathlib

/-!
Verification of the embedded shade-controller device agent (`src/main.py`,
`src/servo_control.py`) against its natural-language specification.

The development shallowly embeds the Python program: machine integers are
`Nat` with explicit `% 2 ^ 32` where 32-bit overflow matters, byte strings
are `List Nat` (each element a byte value), JSON response bodies are a
record of optional fields, the HTTP transport is an oracle input describing
what the server did for one request, and Python exceptions are an explicit
error type threaded through `Except`.
-/

set_option maxRecDepth 10000
set_option linter.unusedVariables false

namespace ShadeController

/-! ## Byte strings and UTF-8 (Python `str.encode()`) -/

/-- UTF-8 encoding of a single Unicode code point, as Python `str.encode()`
produces for each character. -/
def utf8Char (n : Nat) : List Nat :=
  if n < 0x80 then [n]
  else if n < 0x800 then
    [0xC0 ||| (n >>> 6), 0x80 ||| (n &&& 0x3F)]
  else if n < 0x10000 then
    [0xE0 ||| (n >>> 12), 0x80 ||| ((n >>> 6) &&& 0x3F), 0x80 ||| (n &&& 0x3F)]
  else
    [0xF0 ||| (n >>> 18), 0x80 ||| ((n >>> 12) &&& 0x3F),
     0x80 ||| ((n >>> 6) &&& 0x3F), 0x80 ||| (n &&& 0x3F)]

/-- Byte sequence of a string, UTF-8 encoded (Python `s.encode()`). -/
def strBytes (s : String) : List Nat :=
  s.data.flatMap (fun c => utf8Char c.toNat)

/-! ## SHA-256 (FIPS 180-4), the hash `hashlib.sha256` computes -/

/-- Truncation to a 32-bit word. -/
def m32 (x : Nat) : Nat := x % 4294967296

/-- Rotate a 32-bit word right by `n` bits (the low `n` bits wrap to the
top). -/
def rotr (n x : Nat) : Nat := (x >>> n) ||| ((x % 2 ^ n) <<< (32 - n))

def bigSigma0 (x : Nat) : Nat := rotr 2 x ^^^ rotr 13 x ^^^ rotr 22 x

def bigSigma1 (x : Nat) : Nat := rotr 6 x ^^^ rotr 11 x ^^^ rotr 25 x

def smallSigma0 (x : Nat) : Nat := rotr 7 x ^^^ rotr 18 x ^^^ (x >>> 3)

def smallSigma1 (x : Nat) : Nat := rotr 17 x ^^^ rotr 19 x ^^^ (x >>> 10)

def chFn (x y z : Nat) : Nat := (x &&& y) ^^^ ((x ^^^ 0xFFFFFFFF) &&& z)

def majFn (x y z : Nat) : Nat := (x &&& y) ^^^ (x &&& z) ^^^ (y &&& z)

/-- The 64 round constants of FIPS 180-4, written in decimal; the test
vectors below pin them down. -/
def sha256K : List Nat :=
  [1116352408, 1899447441, 3049323471, 3921009573, 961987163,
   1508970993, 2453635748, 2870763221, 3624381080, 310598401,
   607225278, 1426881987, 1925078388, 2162078206, 2614888103,
   3248222580, 3835390401, 4022224774, 264347078, 604807628,
   770255983, 1249150122, 1555081692, 1996064986, 2554220882,
   2821834349, 2952996808, 3210313671, 3336571891, 3584528711,
   113926993, 338241895, 666307205, 773529912, 1294757372,
   1396182291, 1695183700, 1986661051, 2177026350, 2456956037,
   2730485921, 2820302411, 3259730800, 3345764771, 3516065817,
   3600352804, 4094571909, 275423344, 430227734, 506948616,
   659060556, 883997877, 958139571, 1322822218, 1537002063,
   1747873779, 1955562222, 2024104815, 2227730452, 2361852424,
   2428436474, 2756734187, 3204031479, 3329325298]

/-- The eight-word initial state, in decimal. -/
def sha256H0 : List Nat :=
  [1779033703, 3144134277, 1013904242, 2773480762,
   1359893119, 2600822924, 528734635, 1541459225]

/-- Big-endian 8-byte rendering of a 64-bit length field. -/
def be64 (n : Nat) : List Nat :=
  [(n >>> 56) % 256, (n >>> 48) % 256, (n >>> 40) % 256, (n >>> 32) % 256,
   (n >>> 24) % 256, (n >>> 16) % 256, (n >>> 8) % 256, n % 256]

/-- SHA-256 message padding: append `0x80`, zeros to 56 mod 64, then the
bit length as a big-endian 64-bit integer. -/
def padMsg (msg : List Nat) : List Nat :=
  msg ++ [0x80] ++ List.replicate ((119 - msg.length % 64) % 64) 0
      ++ be64 (8 * msg.length)

/-- Big-endian grouping of bytes into 32-bit words. -/
def bytesToWords : List Nat → List Nat
  | a :: b :: c :: d :: rest => (((a * 256 + b) * 256 + c) * 256 + d) :: bytesToWords rest
  | _ => []

/-- One byte-quadruple, big endian, of a 32-bit word. -/
def wordToBytes (w : Nat) : List Nat :=
  [(w >>> 24) % 256, (w >>> 16) % 256, (w >>> 8) % 256, w % 256]

/-- Extend the 16-word block to the 64-word message schedule, one word per
step. -/
def extendSchedule (w : List Nat) : Nat → List Nat
  | 0 => w
  | n + 1 =>
    extendSchedule
      (w ++ [m32 (smallSigma1 (w.getD (w.length - 2) 0) + w.getD (w.length - 7) 0
               + smallSigma0 (w.getD (w.length - 15) 0) + w.getD (w.length - 16) 0)]) n

/-- One round of the SHA-256 compression function on the 8-word state. -/
def compressRound (w : List Nat) (st : List Nat) (i : Nat) : List Nat :=
  match st with
  | [a, b, c, d, e, f, g, h] =>
    let t1 := m32 (h + bigSigma1 e + chFn e f g + sha256K.getD i 0 + w.getD i 0)
    let t2 := m32 (bigSigma0 a + majFn a b c)
    [m32 (t1 + t2), a, b, c, m32 (d + t1), e, f, g]
  | _ => st

/-- Process one 64-byte chunk, updating the 8-word hash state. -/
def processChunk (h : List Nat) (chunk : List Nat) : List Nat :=
  let w := extendSchedule (bytesToWords chunk) 48
  let st := (List.range 64).foldl (compressRound w) h
  List.zipWith (fun x y => m32 (x + y)) h st

/-- Split a byte list into 64-byte chunks; the fuel argument bounds the
number of chunks and is in practice the list length, which always
suffices because every chunk consumes at least one byte. -/
def chunks64F : Nat → List Nat → List (List Nat)
  | 0, _ => []
  | _, [] => []
  | fuel + 1, l => l.take 64 :: chunks64F fuel (l.drop 64)

/-- Split a byte list into 64-byte chunks. -/
def chunks64 (l : List Nat) : List (List Nat) := chunks64F l.length l

/-- SHA-256 of a byte sequence, as a 32-byte sequence. -/
def sha256 (msg : List Nat) : List Nat :=
  ((chunks64 (padMsg msg)).foldl processChunk sha256H0).flatMap wordToBytes

/-! ## HMAC (RFC 2104), as `hmac.new(key, msg, hashlib.sha256)` computes -/

/-- HMAC-SHA256 digest of `msg` under `key` (block size 64 bytes). -/
def hmacSha256 (key msg : List Nat) : List Nat :=
  let k0 := if 64 < key.length then sha256 key else key
  let k1 := k0 ++ List.replicate (64 - k0.length) 0
  sha256 ((k1.map (· ^^^ 0x5c)) ++ sha256 ((k1.map (· ^^^ 0x36)) ++ msg))

/-! ## Lowercase hex rendering (Python `.hexdigest()`) -/

/-- The sixteen lowercase hexadecimal digit characters. -/
def hexDigits : List Char := "0123456789abcdef".data

/-- The lowercase hex digit of a value below 16. -/
def hexChar (n : Nat) : Char := hexDigits.getD n '0'

/-- The two lowercase hex digits of one byte. -/
def byteHex (b : Nat) : List Char := [hexChar (b / 16 % 16), hexChar (b % 16)]

/-- Lowercase hexadecimal string of a byte sequence, the value Python's
`.hexdigest()` returns. -/
def hexdigest (bs : List Nat) : String := String.mk (bs.flatMap byteHex)

/-! ## Data model of `main.py` -/

/-- The `DeviceAction` enum: members `OPEN = "open"`, `CLOSE = "close"`. -/
inductive DeviceAction
  | OPEN
  | CLOSE
deriving DecidableEq

/-- The string value of each enum member. -/
def DeviceAction.value : DeviceAction → String
  | .OPEN => "open"
  | .CLOSE => "close"

/-- The `AuthToken` dataclass: `token: str`, `channel_id: Optional[str] = None`. -/
structure AuthToken where
  token : String
  channel_id : Option String := none
deriving DecidableEq

/-- A parsed JSON response body; each field the program ever reads is an
optional string, `none` meaning the key is absent. -/
structure Body where
  challenge : Option String := none
  token : Option String := none
  channelId : Option String := none
  message : Option String := none
deriving DecidableEq

/-- What the server/transport did for one request: a response with a status
code, raw text and parsed body; a timeout; or a transport-level failure
(`requests.exceptions.RequestException` other than `Timeout`). -/
inductive TransportResult
  | response (status : Nat) (text : String) (body : Body)
  | timeout
  | netError (msg : String)
deriving DecidableEq

/-- The Python exceptions relevant to the program: the program's own
`DeviceAPIError`, the re-raised `requests.exceptions.Timeout`, the builtin
`KeyError` and `ValueError`, and `KeyboardInterrupt`. -/
inductive PyErr
  | deviceAPIError (msg : String)
  | timeoutExc
  | keyError (key : String)
  | valueError (msg : String)
  | keyboardInterrupt
deriving DecidableEq

instance {ε α : Type} [DecidableEq ε] [DecidableEq α] : DecidableEq (Except ε α)
  | .ok x, .ok y =>
    if h : x = y then .isTrue (h ▸ rfl) else .isFalse (fun hh => h (Except.ok.inj hh))
  | .ok _, .error _ => .isFalse (fun hh => Except.noConfusion hh)
  | .error _, .ok _ => .isFalse (fun hh => Except.noConfusion hh)
  | .error x, .error y =>
    if h : x = y then .isTrue (h ▸ rfl) else .isFalse (fun hh => h (Except.error.inj hh))

/-- The `Config` class, with its source values as defaults. -/
structure Config where
  device_id : String := "sunshade-01"
  psk : List Nat := strBytes "secretkey"
  server_url : String := "http://localhost:5138"
  poll_timeout : Nat := 5
  retry_delay : Nat := 1

/-! ## `DeviceAPI` -/

/-- The data a `DeviceAPI` helper passes into `_make_request`: the endpoint
plus whichever JSON fields and headers the call supplies. -/
structure ApiRequest where
  endpoint : String
  serial : Option String := none
  challengeResponse : Option String := none
  authorization : Option String := none
  channelId : Option String := none
deriving DecidableEq

/-- `DeviceAPI._make_request`: non-200 statuses raise `DeviceAPIError`
carrying status and body text; a timeout re-raises when `allow_timeout` and
otherwise becomes a `DeviceAPIError`; any other transport failure becomes a
`DeviceAPIError`.  The server's behaviour is the oracle input `tr`, so the
request value itself does not determine the response. -/
def make_request (allow_timeout : Bool) (_req : ApiRequest) (tr : TransportResult) :
    Except PyErr Body :=
  match tr with
  | .response status text body =>
    if status ≠ 200 then
      .error (.deviceAPIError ("HTTP " ++ toString status ++ ": " ++ text))
    else .ok body
  | .timeout =>
    if allow_timeout then .error .timeoutExc
    else .error (.deviceAPIError "Request timed out")
  | .netError msg => .error (.deviceAPIError ("API request failed: " ++ msg))

/-- `DeviceAPI.get_challenge`: `response["challenge"]` raises `KeyError`
when the field is absent from a success body. -/
def get_challenge (cfg : Config) (tr : TransportResult) : Except PyErr String :=
  match make_request false { endpoint := "deviceauth/challenge", serial := some cfg.device_id } tr with
  | .error e => .error e
  | .ok body =>
    match body.challenge with
    | some c => .ok c
    | none => .error (.keyError "challenge")

/-- The signature `submit_challenge_response` computes:
`hmac.new(self.psk, challenge.encode(), hashlib.sha256).hexdigest()`. -/
def challengeSignature (psk : List Nat) (challenge : String) : String :=
  hexdigest (hmacSha256 psk (strBytes challenge))

/-- The request body `submit_challenge_response` sends to
`deviceauth/respond`. -/
def respondRequest (cfg : Config) (challenge : String) : ApiRequest :=
  { endpoint := "deviceauth/respond"
    serial := some cfg.device_id
    challengeResponse := some (challengeSignature cfg.psk challenge) }

/-- `DeviceAPI.submit_challenge_response`: `response["token"]` raises
`KeyError` when the field is absent from a success body. -/
def submit_challenge_response (cfg : Config) (challenge : String) (tr : TransportResult) :
    Except PyErr String :=
  match make_request false (respondRequest cfg challenge) tr with
  | .error e => .error e
  | .ok body =>
    match body.token with
    | some t => .ok t
    | none => .error (.keyError "token")

/-- `DeviceAPI.get_channel_id`: `response["channelId"]` raises `KeyError`
when the field is absent from a success body. -/
def get_channel_id (cfg : Config) (token : String) (tr : TransportResult) :
    Except PyErr String :=
  match make_request false { endpoint := "channel/listener/connect", authorization := some token } tr with
  | .error e => .error e
  | .ok body =>
    match body.channelId with
    | some c => .ok c
    | none => .error (.keyError "channelId")

/-- `DeviceAPI.poll_channel`: one poll bounded by `cfg.poll_timeout` with
`allow_timeout=True`; the propagated timeout exception is caught here and
becomes `none` (no command), other API errors re-raise; on success the
result is `response.get("message")`. -/
def poll_channel (cfg : Config) (token : String) (channel_id : String) (tr : TransportResult) :
    Except PyErr (Option String) :=
  match make_request true
      { endpoint := "channel/listener/poll", authorization := some token,
        channelId := some channel_id } tr with
  | .ok body => .ok body.message
  | .error .timeoutExc => .ok none
  | .error e => .error e

/-! ## `DeviceManager` -/

/-- `DeviceAction(action)`: Python enum lookup by value; a string that is no
member's value raises `ValueError`. -/
def deviceActionOfValue (action : String) : Except PyErr DeviceAction :=
  if action = DeviceAction.OPEN.value then .ok .OPEN
  else if action = DeviceAction.CLOSE.value then .ok .CLOSE
  else .error (.valueError (action ++ " is not a valid DeviceAction"))

/-- `DeviceManager.handle_action`: the result carries the list of
`set_angle` arguments passed to the controller; the `ValueError` of an
unknown action is caught and logged inside the method. -/
def handle_action (action : String) : Except PyErr (List Nat) :=
  match deviceActionOfValue action with
  | .ok a =>
    if a = DeviceAction.CLOSE then .ok [0]
    else if a = DeviceAction.OPEN then .ok [180]
    else .ok []
  | .error (.valueError _) => .ok []
  | .error e => .error e

/-- `DeviceManager.authenticate`: challenge, respond, connect in sequence.
Any `DeviceAPIError` is caught, logged and turned into `False`, leaving the
stored token unchanged; a `KeyError` from a missing response field is not
caught and escapes.  On success both `token` and `channel_id` are stored in
one assignment. -/
def authenticate (cfg : Config) (trChallenge trRespond trConnect : TransportResult)
    (st : Option AuthToken) : Except PyErr (Bool × Option AuthToken) :=
  match get_challenge cfg trChallenge with
  | .error (.deviceAPIError _) => .ok (false, st)
  | .error e => .error e
  | .ok challenge =>
    match submit_challenge_response cfg challenge trRespond with
    | .error (.deviceAPIError _) => .ok (false, st)
    | .error e => .error e
    | .ok token =>
      match get_channel_id cfg token trConnect with
      | .error (.deviceAPIError _) => .ok (false, st)
      | .error e => .error e
      | .ok channel_id => .ok (true, some { token := token, channel_id := some channel_id })

/-! ## `DeviceManager.run` and `main` -/

/-- Asynchronous `KeyboardInterrupt` delivery points inside one iteration
of the poll loop: before the session check, during the blocking poll call,
after the poll returns, and during the pacing sleep. -/
inductive LoopPos
  | atCheck
  | atPoll
  | atDispatch
  | atSleep
deriving DecidableEq

/-- Result of running `DeviceManager.run` for a bounded number of loop
iterations: a `sys.exit(code)` (with whether a fatal error was logged), an
exception escaping `run`, or still in the loop when the bound ran out. -/
inductive RunRes
  | exited (code : Nat) (fatalLogged : Bool)
  | crashed (e : PyErr)
  | running (st : Option AuthToken)
deriving DecidableEq

/-- Oracle environment: one transport outcome per request the program
makes — the three handshake requests and one poll outcome per iteration. -/
structure Env where
  trChallenge : TransportResult
  trRespond : TransportResult
  trConnect : TransportResult
  trPoll : Nat → TransportResult

/-- Trace of the poll loop: the manager state at the top of every started
iteration, and the state in hand at every poll request actually issued. -/
structure LoopTrace where
  iterStates : List (Option AuthToken)
  pollSessions : List (Option AuthToken)
deriving DecidableEq

/-- The dispatch step of one loop iteration: `if message:
self.handle_action(message)` — the action handler runs only for a present,
truthy (non-empty) message. -/
def dispatchStep (message : Option String) : Except PyErr (List Nat) :=
  match message with
  | some m => if m ≠ "" then handle_action m else .ok []
  | none => .ok []

/-- The `while True` loop of `DeviceManager.run`.  `sched = some (i, p)`
delivers a `KeyboardInterrupt` at point `p` of iteration `i`; the loop
catches only `DeviceAPIError`, so the interrupt always escapes `run`.
`fuel` bounds how many iterations are unfolded, `iter` numbers the current
iteration.  The body mirrors the source: session check (raising
`DeviceAPIError`, caught below, when the token is absent or the channel id
is `None` or empty — Python truthiness), poll, dispatch when a message is
present and truthy, pacing sleep. -/
def runLoop (cfg : Config) (env : Env) (sched : Option (Nat × LoopPos)) :
    Nat → Nat → Option AuthToken → RunRes × LoopTrace
  | 0, _, st => (.running st, ⟨[], []⟩)
  | fuel + 1, iter, st =>
    if sched = some (iter, .atCheck) then (.crashed .keyboardInterrupt, ⟨[st], []⟩)
    else
      match st with
      | none => (.exited 1 true, ⟨[st], []⟩)
      | some tok =>
        match tok.channel_id with
        | none => (.exited 1 true, ⟨[st], []⟩)
        | some ch =>
          if ch = "" then (.exited 1 true, ⟨[st], []⟩)
          else if sched = some (iter, .atPoll) then (.crashed .keyboardInterrupt, ⟨[st], []⟩)
          else
            match poll_channel cfg tok.token ch (env.trPoll iter) with
            | .error (.deviceAPIError _) => (.exited 1 true, ⟨[st], [st]⟩)
            | .error e => (.crashed e, ⟨[st], [st]⟩)
            | .ok message =>
              if sched = some (iter, .atDispatch) then (.crashed .keyboardInterrupt, ⟨[st], [st]⟩)
              else
                match dispatchStep message with
                | .error e => (.crashed e, ⟨[st], [st]⟩)
                | .ok _ =>
                  if sched = some (iter, .atSleep) then (.crashed .keyboardInterrupt, ⟨[st], [st]⟩)
                  else
                    let r := runLoop cfg env sched fuel (iter + 1) st
                    (r.1, ⟨st :: r.2.iterStates, st :: r.2.pollSessions⟩)

/-- `DeviceManager.run`: authenticate once from a fresh manager
(`auth_token = None`); on `False` log the fatal "Initial authentication
failed" and `sys.exit(1)`; on success print the session and enter the poll
loop.  There is no re-authentication path. -/
def runManager (cfg : Config) (env : Env) (sched : Option (Nat × LoopPos)) (fuel : Nat) :
    RunRes × LoopTrace :=
  match authenticate cfg env.trChallenge env.trRespond env.trConnect none with
  | .error e => (.crashed e, ⟨[], []⟩)
  | .ok (false, _) => (.exited 1 true, ⟨[], []⟩)
  | .ok (true, st) => runLoop cfg env sched fuel 0 st

/-- Observable process outcome: the exit code and whether a fatal-error
diagnostic was emitted (a `logger.error` line or an uncaught-exception
traceback; the graceful-shutdown info line counts as no fatal report). -/
inductive ProcResult
  | exit (code : Nat) (fatalReported : Bool)
  | running
deriving DecidableEq

/-- `main()`: runs the manager; a `KeyboardInterrupt` is caught and turned
into a clean exit 0 with an info log only; any other exception escaping
`run` ends the interpreter with exit code 1 and a traceback. -/
def mainModel (cfg : Config) (env : Env) (sched : Option (Nat × LoopPos)) (fuel : Nat) :
    ProcResult :=
  match (runManager cfg env sched fuel).1 with
  | .exited code fatal => .exit code fatal
  | .crashed .keyboardInterrupt => .exit 0 false
  | .crashed _ => .exit 1 true
  | .running _ => .running

/-! ## Shared concrete environments for sanity checks -/

/-- A success body with a given challenge. -/
def challengeBody (c : String) : Body := { challenge := some c }

/-- A success body with a given token. -/
def tokenBody (t : String) : Body := { token := some t }

/-- A success body with a given channel id. -/
def channelBody (c : String) : Body := { channelId := some c }

/-- A success body with a given pending message. -/
def messageBody (m : String) : Body := { message := some m }

/-- The empty success body. -/
def emptyBody : Body := {}

/-- The §8 simulated handshake: challenge `"abc123"`, token `"T1"`,
channel `"CH1"`, with a given poll behaviour. -/
def goodAuthEnv (p : Nat → TransportResult) : Env :=
  { trChallenge := .response 200 "" (challengeBody "abc123")
    trRespond := .response 200 "" (tokenBody "T1")
    trConnect := .response 200 "" (channelBody "CH1")
    trPoll := p }

/-- Successful handshake followed by every poll failing with HTTP 401. -/
def env401 : Env := goodAuthEnv (fun _ => .response 401 "unauthorized" emptyBody)

/-- Successful handshake followed by every poll failing with HTTP 500. -/
def env500 : Env := goodAuthEnv (fun _ => .response 500 "server error" emptyBody)

/-- Whether a result failed with the program's own typed `DeviceAPIError`. -/
def isDeviceAPIError {α : Type} : Except PyErr α → Bool
  | .error (.deviceAPIError _) => true
  | _ => false

/-! ## Sanity checks: hash test vectors and the §8 handshake round trip -/

/-- Sanity vector: SHA-256 of `"abc"` (FIPS 180-4 example). -/
theorem sha256_abc_vector :
    hexdigest (sha256 (strBytes "abc"))
      = "ba7816bf8f01cfea414140de5dae2223b00361a396177a9cb410ff61f20015ad" := by
  decide

/-- Sanity vector: HMAC-SHA256 test case 2 of RFC 4231. -/
theorem hmac_jefe_vector :
    hexdigest (hmacSha256 (strBytes "Jefe") (strBytes "what do ya want for nothing?"))
      = "5bdcc146bf60754e6a042426089575c75a003f089d2739839dec58b964ec3843" := by
  decide

/-- Sanity: the simulated handshake of §8 produces the full session
`{token := "T1", channel_id := "CH1"}`. -/
theorem authenticate_roundtrip :
    authenticate {} (.response 200 "" (challengeBody "abc123"))
        (.response 200 "" (tokenBody "T1")) (.response 200 "" (channelBody "CH1")) none
      = .ok (true, some { token := "T1", channel_id := some "CH1" }) := by
  rfl

/-! ## Claim C4 -/

/-- C4: for every `waitTimeout` (and every other configuration value), when
the poll transport times out with no response, one poll returns no-command
(`ok none`) and surfaces no error. -/
theorem poll_timeout_is_noCommand (cfg : Config) (token channel_id : String) :
    poll_channel cfg token channel_id .timeout = .ok none := rfl

/-! ## Claim C5 -/

/-- C5: for every successful poll response, the poll returns the literal
value of the `message` field when present — whatever string it is, with no
validation against the command enum — and no-command when absent. -/
theorem poll_success_returns_literal_message (cfg : Config) (token channel_id text : String)
    (body : Body) :
    (∀ m, body.message = some m →
      poll_channel cfg token channel_id (.response 200 text body) = .ok (some m))
    ∧ (body.message = none →
      poll_channel cfg token channel_id (.response 200 text body) = .ok none) := by
  constructor
  · intro m hm
    simp [poll_channel, make_request, hm]
  · intro hm
    simp [poll_channel, make_request, hm]

/-- C5 witness: the poll returns the literal message `"jump"` even though
it is no valid command. -/
theorem poll_success_returns_literal_message_witness :
    poll_channel {} "T1" "CH1" (.response 200 "" (messageBody "jump")) = .ok (some "jump") :=
  (poll_success_returns_literal_message {} "T1" "CH1" "" (messageBody "jump")).1 "jump" rfl

/-! ## Claim C6 -/

/-- C6: `handle_action` makes exactly one `set_angle(180)` call for
`"open"`, exactly one `set_angle(0)` call for `"close"`, and for any other
string makes zero actuator calls and lets no exception escape (the result
is `ok` in every case). -/
theorem handle_action_dispatch :
    handle_action "open" = .ok [180] ∧ handle_action "close" = .ok [0]
    ∧ ∀ s, s ≠ "open" → s ≠ "close" → handle_action s = .ok [] := by
  refine ⟨by decide, by decide, ?_⟩
  intro s h1 h2
  simp [handle_action, deviceActionOfValue, DeviceAction.value, h1, h2]

/-- C6 witness: the unknown command `"jump"` yields zero actuator calls and
no exception. -/
theorem handle_action_dispatch_witness : handle_action "jump" = .ok [] :=
  handle_action_dispatch.2.2 "jump" (by decide) (by decide)

/-! ## Claim C10 -/

/-- C10: command matching is exact and case sensitive — the enum lookup
succeeds exactly on the strings `"open"` and `"close"`, and the casing
variants `"OPEN"`, `"Open"` and `"open "` are unknown commands yielding
zero actuator calls. -/
theorem command_matching_exact_case_sensitive :
    (∀ s, (∃ a, deviceActionOfValue s = .ok a) ↔ (s = "open" ∨ s = "close"))
    ∧ handle_action "OPEN" = .ok [] ∧ handle_action "Open" = .ok []
    ∧ handle_action "open " = .ok [] := by
  refine ⟨?_, by decide, by decide, by decide⟩
  intro s
  constructor
  · rintro ⟨a, ha⟩
    by_cases h1 : s = "open"
    · exact .inl h1
    · by_cases h2 : s = "close"
      · exact .inr h2
      · simp [deviceActionOfValue, DeviceAction.value, h1, h2] at ha
  · rintro (rfl | rfl)
    · exact ⟨.OPEN, by decide⟩
    · exact ⟨.CLOSE, by decide⟩

/-- C10 witness: `"open"` is a valid command value. -/
theorem command_matching_exact_case_sensitive_witness :
    ∃ a, deviceActionOfValue "open" = .ok a :=
  (command_matching_exact_case_sensitive.1 "open").mpr (.inl rfl)

/-! ## Claim C2 -/

/-- C2 counterexample: a success response whose body lacks the `challenge`
field does not fail through the component's declared `DeviceAPIError`
taxonomy — it raises the untyped builtin `KeyError`, and that exception
escapes `authenticate` (which catches only `DeviceAPIError`). -/
theorem auth_malformed_keyError_counterexample :
    isDeviceAPIError (get_challenge {} (.response 200 "" emptyBody)) = false
    ∧ get_challenge {} (.response 200 "" emptyBody) = .error (.keyError "challenge")
    ∧ authenticate {} (.response 200 "" emptyBody) .timeout .timeout none
        = .error (.keyError "challenge") := by
  decide

/-- C2 amended: for every server success response whose body lacks the
expected field (`challenge`, `token`, or `channelId`), the authentication
step fails with the untyped builtin `KeyError` naming that field, which
escapes the component (and `authenticate`) instead of being surfaced as the
typed `DeviceAPIError`. -/
theorem auth_missing_field_raises_keyError (cfg : Config) (challenge token text : String)
    (body : Body) (tr2 tr3 : TransportResult) :
    (body.challenge = none →
      get_challenge cfg (.response 200 text body) = .error (.keyError "challenge")
      ∧ authenticate cfg (.response 200 text body) tr2 tr3 none = .error (.keyError "challenge"))
    ∧ (body.token = none →
      submit_challenge_response cfg challenge (.response 200 text body) = .error (.keyError "token")
      ∧ authenticate cfg (.response 200 "" (challengeBody challenge)) (.response 200 text body)
          tr3 none = .error (.keyError "token"))
    ∧ (body.channelId = none →
      get_channel_id cfg token (.response 200 text body) = .error (.keyError "channelId")
      ∧ authenticate cfg (.response 200 "" (challengeBody challenge))
          (.response 200 "" (tokenBody token)) (.response 200 text body) none
        = .error (.keyError "channelId")) := by
  refine ⟨fun h => ⟨?_, ?_⟩, fun h => ⟨?_, ?_⟩, fun h => ⟨?_, ?_⟩⟩ <;>
    simp [authenticate, get_challenge, submit_challenge_response, get_channel_id,
      make_request, challengeBody, tokenBody, h]

/-- C2 amended, witness: the missing-`token` case at a concrete input. -/
theorem auth_missing_field_raises_keyError_witness :
    submit_challenge_response {} "abc123" (.response 200 "" emptyBody) = .error (.keyError "token")
    ∧ authenticate {} (.response 200 "" (challengeBody "abc123")) (.response 200 "" emptyBody)
        .timeout none = .error (.keyError "token") :=
  (auth_missing_field_raises_keyError {} "abc123" "T1" "" emptyBody .timeout .timeout).2.1 rfl

/-! ## Claim C3 -/

theorem hexChar_mem_hexDigits (n : Nat) : hexChar n ∈ hexDigits := by
  unfold hexChar
  by_cases h : n < hexDigits.length
  · rw [List.getD_eq_getElem _ _ h]
    exact List.getElem_mem h
  · rw [List.getD_eq_default _ _ (Nat.le_of_not_lt h)]
    decide

theorem byteHex_mem_hexDigits (b : Nat) : ∀ c ∈ byteHex b, c ∈ hexDigits := by
  intro c hc
  unfold byteHex at hc
  rcases List.mem_pair.mp hc with rfl | rfl <;> exact hexChar_mem_hexDigits _

theorem hexdigest_chars_lower_hex (bs : List Nat) :
    ∀ c ∈ (hexdigest bs).data, c ∈ hexDigits := by
  intro c hc
  unfold hexdigest at hc
  rw [show (String.mk (bs.flatMap byteHex)).data = bs.flatMap byteHex from rfl,
    List.mem_flatMap] at hc
  obtain ⟨b, _, hcb⟩ := hc
  exact byteHex_mem_hexDigits b c hcb

/-- C3: for every shared secret and every challenge string, the
`challengeResponse` field submitted to the server equals the lowercase
hexadecimal rendering of HMAC-SHA256(secret, challenge) — every character
of it is one of the sixteen lowercase hex digits — and the computation is
deterministic: two runs on the same inputs produce the same signature. -/
theorem challenge_response_is_lowercase_hmac (device_id : String) (psk : List Nat)
    (challenge : String) :
    (respondRequest { device_id := device_id, psk := psk } challenge).challengeResponse
        = some (hexdigest (hmacSha256 psk (strBytes challenge)))
    ∧ (∀ c ∈ (challengeSignature psk challenge).data, c ∈ hexDigits)
    ∧ challengeSignature psk challenge = challengeSignature psk challenge := by
  exact ⟨rfl, hexdigest_chars_lower_hex _, rfl⟩

/-- C3 witness: at the RFC 4231 test inputs, the first signature character
is a lowercase hex digit (forcing a concrete evaluation of the HMAC). -/
theorem challenge_response_is_lowercase_hmac_witness : '5' ∈ hexDigits :=
  (challenge_response_is_lowercase_hmac "sunshade-01" (strBytes "Jefe")
    "what do ya want for nothing?").2.1 '5' (by decide)

/-! ## Claim C1 -/

/-- C1 counterexample: a poll failure with the authorization-class status
401 does not transition the supervisor to re-authentication — it terminates
the process with exit code 1 and a fatal-error log, exactly as a 500 does.
There is no re-authentication path in the code: any `DeviceAPIError` in the
poll loop reaches `sys.exit(1)`. -/
theorem poll_401_terminates_counterexample :
    (runManager {} env401 none 3).1 = .exited 1 true
    ∧ (runManager {} env500 none 3).1 = .exited 1 true := by
  decide

/-- C1 amended: a poll failure with any non-200 status — authorization
class (401/403) or not (500) alike — transitions the supervisor to
TERMINATED with exit code 1 and a fatal-error report; the supervisor never
re-authenticates (the model has no re-authentication transition: the only
call of `authenticate` is the initial one in `runManager`). -/
theorem poll_failure_always_fatal (status : Nat) (h : status ≠ 200)
    (text : String) (body : Body) (fuel : Nat) :
    (runManager {}
        ⟨.response 200 "" (challengeBody "abc123"), .response 200 "" (tokenBody "T1"),
         .response 200 "" (channelBody "CH1"), fun _ => .response status text body⟩
        none (fuel + 1)).1
      = .exited 1 true := by
  show (runLoop {} _ none (fuel + 1) 0 (some { token := "T1", channel_id := some "CH1" })).1
      = .exited 1 true
  simp [runLoop, poll_channel, make_request, h]

/-- C1 amended, witness: the 401 case at the first poll. -/
theorem poll_failure_always_fatal_witness :
    (runManager {}
        ⟨.response 200 "" (challengeBody "abc123"), .response 200 "" (tokenBody "T1"),
         .response 200 "" (channelBody "CH1"), fun _ => .response 401 "unauthorized" emptyBody⟩
        none 1).1
      = .exited 1 true :=
  poll_failure_always_fatal 401 (by decide) "unauthorized" emptyBody 0

/-! ## Claim C7 -/

/-- C7: if the initial authenticate-then-bind sequence fails with a
transport-level failure (NetworkFailure), a non-success status
(ServerRejected), or a success response missing the expected field
(MalformedResponse) — at any of the three handshake requests — the process
reports a fatal error and exits with the non-zero status 1, without
retrying the handshake and without entering the poll loop: the outcome is
the same for every poll oracle `pollTr` and every loop bound `fuel`,
including `fuel = 0`, so no poll request is ever consulted. -/
theorem initial_auth_failure_fatal (cfg : Config) (pollTr : Nat → TransportResult)
    (fuel : Nat) (msg text challenge token : String) (status : Nat) (body : Body)
    (tr2 tr3 : TransportResult) :
    (mainModel cfg ⟨.netError msg, tr2, tr3, pollTr⟩ none fuel = .exit 1 true)
    ∧ (status ≠ 200 →
      mainModel cfg ⟨.response status text body, tr2, tr3, pollTr⟩ none fuel = .exit 1 true)
    ∧ (body.challenge = none →
      mainModel cfg ⟨.response 200 text body, tr2, tr3, pollTr⟩ none fuel = .exit 1 true)
    ∧ (mainModel cfg ⟨.response 200 "" (challengeBody challenge), .netError msg, tr3, pollTr⟩
        none fuel = .exit 1 true)
    ∧ (body.token = none →
      mainModel cfg ⟨.response 200 "" (challengeBody challenge), .response 200 text body,
        tr3, pollTr⟩ none fuel = .exit 1 true)
    ∧ (status ≠ 200 →
      mainModel cfg ⟨.response 200 "" (challengeBody challenge),
        .response 200 "" (tokenBody token), .response status text body, pollTr⟩ none fuel
        = .exit 1 true)
    ∧ (body.channelId = none →
      mainModel cfg ⟨.response 200 "" (challengeBody challenge),
        .response 200 "" (tokenBody token), .response 200 text body, pollTr⟩ none fuel
        = .exit 1 true) := by
  refine ⟨?_, fun h => ?_, fun h => ?_, ?_, fun h => ?_, fun h => ?_, fun h => ?_⟩ <;>
    simp [mainModel, runManager, authenticate, get_challenge, submit_challenge_response,
      get_channel_id, make_request, challengeBody, tokenBody, *]

/-- C7 witness: a rejected challenge request (HTTP 500) and a
transport-level failure, each with zero loop fuel, both end in exit 1 with
a fatal report. -/
theorem initial_auth_failure_fatal_witness :
    mainModel {} ⟨.response 500 "oops" emptyBody, .timeout, .timeout, fun _ => .timeout⟩
        none 0 = .exit 1 true
    ∧ mainModel {} ⟨.netError "connection refused", .timeout, .timeout, fun _ => .timeout⟩
        none 0 = .exit 1 true
    ∧ mainModel {} ⟨.response 200 "" emptyBody, .timeout, .timeout, fun _ => .timeout⟩
        none 0 = .exit 1 true :=
  ⟨(initial_auth_failure_fatal {} (fun _ => .timeout) 0 "connection refused" "oops" "abc123"
      "T1" 500 emptyBody .timeout .timeout).2.1 (by decide),
   (initial_auth_failure_fatal {} (fun _ => .timeout) 0 "connection refused" "oops" "abc123"
      "T1" 500 emptyBody .timeout .timeout).1,
   (initial_auth_failure_fatal {} (fun _ => .timeout) 0 "connection refused" "" "abc123"
      "T1" 500 emptyBody .timeout .timeout).2.2.1 rfl⟩

/-! ## Claim C8 -/

/-- `authenticate` preserves none-or-full sessions: whenever it returns
normally, the resulting session is absent or has both fields set (it is
assigned only after all three handshake calls succeed). -/
theorem authenticate_session_full (cfg : Config) (tr1 tr2 tr3 : TransportResult)
    (st : Option AuthToken) (hst : st = none ∨ ∃ t c, st = some ⟨t, some c⟩) :
    ∀ b st', authenticate cfg tr1 tr2 tr3 st = .ok (b, st') →
      st' = none ∨ ∃ t c, st' = some ⟨t, some c⟩ := by
  intro b st' h
  unfold authenticate at h
  repeat' split at h
  any_goals exact Except.noConfusion h
  all_goals simp only [Except.ok.injEq, Prod.mk.injEq] at h
  all_goals obtain ⟨-, rfl⟩ := h
  all_goals first
    | exact hst
    | exact .inr ⟨_, _, rfl⟩

/-- The poll loop never changes the session: every state recorded in its
trace — at iteration tops and at poll requests — is the state it was
entered with. -/
theorem runLoop_trace_eq_state (cfg : Config) (env : Env) (sched : Option (Nat × LoopPos)) :
    ∀ (fuel iter : Nat) (st : Option AuthToken),
      (∀ s ∈ (runLoop cfg env sched fuel iter st).2.iterStates, s = st)
      ∧ (∀ s ∈ (runLoop cfg env sched fuel iter st).2.pollSessions, s = st) := by
  intro fuel
  induction fuel with
  | zero => intro iter st; simp [runLoop]
  | succ n ih =>
    intro iter st
    have hrec1 := (ih (iter + 1) st).1
    have hrec2 := (ih (iter + 1) st).2
    constructor <;> intro s hs <;> simp only [runLoop] at hs <;>
      (repeat' split at hs) <;> simp at hs <;>
      first
        | exact hs
        | (obtain rfl | hs := hs; exacts [rfl, hrec1 s hs])
        | (obtain rfl | hs := hs; exacts [rfl, hrec2 s hs])

/-- With an absent session the loop exits at the session check of its first
iteration, so no poll request is ever issued. -/
theorem runLoop_none_no_poll (cfg : Config) (env : Env) (sched : Option (Nat × LoopPos))
    (fuel iter : Nat) :
    (runLoop cfg env sched fuel iter none).2.pollSessions = [] := by
  cases fuel with
  | zero => rfl
  | succ n =>
    simp only [runLoop]
    split <;> rfl

/-- C8: in every reachable state of the supervisor, the session is never
partially valid — `authenticate` only ever produces an absent session or
one with both `token` and `channel_id` set, every state at the top of a
poll-loop iteration is absent or full, and every state in hand at an
actually-issued poll request is full (both fields set). -/
theorem session_all_or_nothing (cfg : Config) (env : Env) (sched : Option (Nat × LoopPos))
    (fuel : Nat) :
    (∀ b st', authenticate cfg env.trChallenge env.trRespond env.trConnect none = .ok (b, st') →
      st' = none ∨ ∃ t c, st' = some ⟨t, some c⟩)
    ∧ (∀ s ∈ (runManager cfg env sched fuel).2.iterStates,
      s = none ∨ ∃ t c, s = some ⟨t, some c⟩)
    ∧ (∀ s ∈ (runManager cfg env sched fuel).2.pollSessions,
      ∃ t c, s = some ⟨t, some c⟩) := by
  have hauth := authenticate_session_full cfg env.trChallenge env.trRespond env.trConnect
    none (.inl rfl)
  refine ⟨hauth, ?_, ?_⟩
  · intro s hs
    unfold runManager at hs
    split at hs
    · simp at hs
    · simp at hs
    · rename_i st heq
      have hfull := hauth _ _ heq
      have hss := (runLoop_trace_eq_state cfg env sched fuel 0 st).1 s hs
      rw [hss]
      exact hfull
  · intro s hs
    unfold runManager at hs
    split at hs
    · simp at hs
    · simp at hs
    · rename_i st heq
      rcases hauth _ _ heq with rfl | ⟨t, c, rfl⟩
      · rw [runLoop_none_no_poll] at hs
        simp at hs
      · have hss := (runLoop_trace_eq_state cfg env sched fuel 0 _).2 s hs
        exact ⟨t, c, hss⟩

/-- C8 witness: in a run with a successful handshake and one poll
iteration, the session recorded at the issued poll request is full. -/
theorem session_all_or_nothing_witness :
    ∃ t c, (some { token := "T1", channel_id := some "CH1" } : Option AuthToken)
      = some ⟨t, some c⟩ :=
  (session_all_or_nothing {} (goodAuthEnv fun _ => .timeout) none 1).2.2
    (some { token := "T1", channel_id := some "CH1" }) (by decide)

/-! ## Claim C9 -/

/-- `handle_action` catches the only exception it can raise, so it always
returns normally. -/
theorem handle_action_never_raises (m : String) : ∃ l, handle_action m = .ok l := by
  unfold handle_action deviceActionOfValue
  by_cases h1 : m = DeviceAction.OPEN.value
  · simp [h1]
  · by_cases h2 : m = DeviceAction.CLOSE.value
    · simp [h1, h2, DeviceAction.value]
    · simp [h1, h2]

/-- The dispatch step of a loop iteration always returns normally. -/
theorem dispatchStep_ok (message : Option String) : ∃ l, dispatchStep message = .ok l := by
  cases message with
  | none => exact ⟨[], rfl⟩
  | some m =>
    unfold dispatchStep
    by_cases hm : m = ""
    · simp [hm]
    · simpa [hm] using handle_action_never_raises m

/-- A `KeyboardInterrupt` delivered at any of the four points of any poll
iteration the uninterrupted loop would reach escapes the loop (which
catches only `DeviceAPIError`): if the loop, undisturbed, is still running
after its fuel, then the same loop with an interrupt scheduled anywhere
inside that fuel crashes with `KeyboardInterrupt`. -/
theorem runLoop_interrupt_crashes (cfg : Config) (env : Env) (pos : LoopPos) :
    ∀ (fuel iter j : Nat) (st : Option AuthToken), iter ≤ j → j < iter + fuel →
      (∃ st', (runLoop cfg env none fuel iter st).1 = .running st') →
      (runLoop cfg env (some (j, pos)) fuel iter st).1 = .crashed .keyboardInterrupt := by
  intro fuel
  induction fuel with
  | zero => intro iter j st h1 h2 _; omega
  | succ n ih =>
    intro iter j st h1 h2 hrun
    obtain ⟨st', hrun⟩ := hrun
    simp only [runLoop] at hrun
    simp at hrun
    rcases st with - | ⟨t, chOpt⟩
    · simp at hrun
    rcases chOpt with - | ch
    · simp at hrun
    simp only at hrun
    by_cases hch : ch = ""
    · simp [hch] at hrun
    simp only [hch, if_false, reduceIte] at hrun
    rcases hpoll : poll_channel cfg t ch (env.trPoll iter) with e | msg
    · rw [hpoll] at hrun
      rcases e <;> simp at hrun
    · rw [hpoll] at hrun
      simp only at hrun
      obtain ⟨l, hl⟩ := dispatchStep_ok msg
      rw [hl] at hrun
      simp only at hrun
      by_cases hj : j = iter
      · subst hj
        rcases pos <;>
          simp [runLoop, hch, hpoll, hl]
      · have hcond : ∀ p : LoopPos, (some (j, pos) = some (iter, p)) = False := by
          intro p
          simp [hj]
        simp only [runLoop, hcond, if_false, reduceIte, hch, hpoll, hl]
        exact ih (iter + 1) j (some ⟨t, some ch⟩) (by omega) (by omega) ⟨st', hrun⟩

/-- C9: a user-initiated interrupt delivered at any point of any poll-loop
iteration the loop would otherwise reach makes the loop terminate by the
escaping `KeyboardInterrupt`, and whenever `KeyboardInterrupt` escapes the
manager, the process exits with status 0 and emits no fatal-error report. -/
theorem interrupt_always_clean_exit (cfg : Config) (env : Env) (i : Nat) (pos : LoopPos)
    (sched : Option (Nat × LoopPos)) (fuel : Nat) :
    (∀ st st', (runLoop cfg env none (i + 1) 0 st).1 = .running st' →
      (runLoop cfg env (some (i, pos)) (i + 1) 0 st).1 = .crashed .keyboardInterrupt)
    ∧ ((runManager cfg env sched fuel).1 = .crashed .keyboardInterrupt →
      mainModel cfg env sched fuel = .exit 0 false) := by
  constructor
  · intro st st' h
    exact runLoop_interrupt_crashes cfg env pos (i + 1) 0 i st (Nat.zero_le i) (by omega)
      ⟨st', h⟩
  · intro h
    simp [mainModel, h]

/-- C9 witness: an interrupt during the first poll call of an otherwise
quiet run crashes the loop with `KeyboardInterrupt`, and the process as a
whole exits 0 with no fatal report. -/
theorem interrupt_always_clean_exit_witness :
    (runLoop {} (goodAuthEnv fun _ => .timeout) (some (0, .atPoll)) 1 0
        (some { token := "T1", channel_id := some "CH1" })).1 = .crashed .keyboardInterrupt
    ∧ mainModel {} (goodAuthEnv fun _ => .timeout) (some (0, .atPoll)) 1 = .exit 0 false :=
  ⟨(interrupt_always_clean_exit {} (goodAuthEnv fun _ => .timeout) 0 .atPoll
      (some (0, .atPoll)) 1).1
      (some { token := "T1", channel_id := some "CH1" })
      (some { token := "T1", channel_id := some "CH1" }) (by decide),
   (interrupt_always_clean_exit {} (goodAuthEnv fun _ => .timeout) 0 .atPoll
      (some (0, .atPoll)) 1).2 (by decide)⟩

end ShadeController
